import Mathlib

/-!
Verification of the HDB resale-map core: spatial index construction and
circle/rectangle geo-queries (src/data/DataLoader.ts), the radial selection
session (src/tools/RadialSelection.ts), the fair-value model
(src/analytics/FairValueAnalysis.ts) and the box-plot statistics shared by
src/components/OverviewTab.ts and the fair-value tab.

Modelling conventions: JavaScript numbers are modelled as exact rationals
(ℚ); the transcendental Math primitives (PI, sin, cos, atan2, sqrt, exp)
are not computable over ℚ, so they are gathered into a `JSMath` parameter
record threaded through the functions that call them — every theorem holds
for an arbitrary interpretation of those primitives unless it states an
explicit hypothesis about them.  Fields that the source reads through the
`??` nullish-coalescing guard (`price_index ?? 100`, `storey_midpoint ?? 8`,
`mrt_distance_m ?? 500`) are modelled as `Option`; for the NaN/undefined
claim about index construction the coordinate type itself is instantiated
with `Option ℚ`, `none` standing for a malformed (NaN or undefined) value.
-/

namespace Hdb

/-- Abstract interpretation of the JavaScript Math primitives used by the
source (Math.PI, Math.sin, Math.cos, Math.atan2, Math.sqrt, Math.exp). -/
structure JSMath where
  pi : ℚ
  sin : ℚ → ℚ
  cos : ℚ → ℚ
  atan2 : ℚ → ℚ → ℚ
  sqrt : ℚ → ℚ
  exp : ℚ → ℚ

/-- Record mirroring the `HDBTransaction` interface of src/data/DataLoader.ts.
The numeric type is a parameter so that the same record can be read with
exact coordinates (`ℚ`) or with possibly-malformed coordinates (`Option ℚ`).
`transaction_date` (a JS Date) is kept as its source string. The three
fields that the analytics code reads through `??` defaults are `Option`. -/
structure HDBTransaction (α : Type) where
  month : String
  transaction_date : String
  town : String
  flat_type : String
  block : String
  street_name : String
  storey_range : String
  floor_area_sqm : α
  flat_model : String
  lease_commence_date : α
  remaining_lease_years : α
  resale_price : α
  price_psm : α
  price_psf : α
  latitude : α
  longitude : α
  storey_midpoint : Option α
  mrt_distance_m : Option α
  price_index : Option α
  deriving DecidableEq, Repr

/-- Transactions with exact rational coordinates, the default reading. -/
abbrev Tx := HDBTransaction ℚ

instance : Inhabited Tx :=
  ⟨{ month := "", transaction_date := "", town := "", flat_type := "",
     block := "", street_name := "", storey_range := "", floor_area_sqm := 0,
     flat_model := "", lease_commence_date := 0, remaining_lease_years := 0,
     resale_price := 0, price_psm := 0, price_psf := 0, latitude := 0,
     longitude := 0, storey_midpoint := none, mrt_distance_m := none,
     price_index := none }⟩

/-- Record mirroring the `SpatialItem` interface of src/data/DataLoader.ts:
a bounding box plus the position of the transaction in the loaded array. -/
structure SpatialItem (α : Type) where
  minX : α
  minY : α
  maxX : α
  maxY : α
  index : ℕ
  deriving DecidableEq, Repr

/-- Query rectangle handed to the rbush index (`search(bbox)`). -/
structure Bbox where
  minX : ℚ
  minY : ℚ
  maxX : ℚ
  maxY : ℚ
  deriving DecidableEq, Repr

/-- Model of `DataLoader.buildSpatialIndex`: every loaded transaction is
mapped, in order, to a degenerate point bounding box
(minX = maxX = longitude, minY = maxY = latitude) carrying its array index.
The source performs no filtering of the mapped items. -/
def buildSpatialIndex {α : Type} (data : List (HDBTransaction α)) :
    List (SpatialItem α) :=
  data.enum.map fun p =>
    { minX := p.2.longitude, minY := p.2.latitude,
      maxX := p.2.longitude, maxY := p.2.latitude, index := p.1 }

/-- Rbush box-intersection test between a query box and an item box. -/
def intersectsB (q : Bbox) (it : SpatialItem ℚ) : Bool :=
  decide (it.minX ≤ q.maxX ∧ it.minY ≤ q.maxY ∧ q.minX ≤ it.maxX ∧ q.minY ≤ it.maxY)

/-- Model of `RBush.search(bbox)`: all loaded items whose bounding box
intersects the query box (the bulk-loaded tree is modelled by its item
list; search is membership-equivalent to filtering by intersection). -/
def rbushSearch (q : Bbox) (items : List (SpatialItem ℚ)) : List (SpatialItem ℚ) :=
  items.filter (intersectsB q)

/-- State of a `DataLoader` instance: the loaded transaction array and the
spatial index, `none` until `load` has built it. -/
structure DataLoader where
  data : List Tx
  spatialIndex : Option (List (SpatialItem ℚ))

/-- Field initializers of the `DataLoader` class: empty data, no index. -/
def DataLoader.init : DataLoader := { data := [], spatialIndex := none }

/-- Tail of `DataLoader.load` after the Arrow table has been converted to
rows: store the rows and build the spatial index from them. -/
def loadData (rows : List Tx) : DataLoader :=
  { data := rows, spatialIndex := some (buildSpatialIndex rows) }

/-- Model of `DataLoader.haversineDistance`, composed exactly as in the
source from the abstract Math primitives: Earth radius 6371000 m,
`a = sin²(dLat/2) + cos(lat1)·cos(lat2)·sin²(dLng/2)`,
`c = 2·atan2(√a, √(1−a))`, result `R·c`. -/
def haversineDistance (m : JSMath) (lat1 lng1 lat2 lng2 : ℚ) : ℚ :=
  let R : ℚ := 6371000
  let dLat := (lat2 - lat1) * m.pi / 180
  let dLng := (lng2 - lng1) * m.pi / 180
  let a := m.sin (dLat / 2) * m.sin (dLat / 2) +
    m.cos (lat1 * m.pi / 180) * m.cos (lat2 * m.pi / 180) *
    m.sin (dLng / 2) * m.sin (dLng / 2)
  let c := 2 * m.atan2 (m.sqrt a) (m.sqrt (1 - a))
  R * c

/-- Approximate radius-to-degrees bounding box computed by
`DataLoader.queryCircle`: 1° latitude ≈ 111000 m and 1° longitude ≈
111000·cos(centerLat) m. -/
def circleBbox (m : JSMath) (centerLat centerLng radiusMeters : ℚ) : Bbox :=
  let latOffset := radiusMeters / 111000
  let lngOffset := radiusMeters / (111000 * m.cos (centerLat * m.pi / 180))
  { minX := centerLng - lngOffset, minY := centerLat - latOffset,
    maxX := centerLng + lngOffset, maxY := centerLat + latOffset }

/-- Model of `DataLoader.queryCircle`: `[]` when no index has been built;
otherwise the bbox candidates from the index, mapped back to their
transactions, filtered by exact haversine distance ≤ radius. -/
def queryCircle (m : JSMath) (dl : DataLoader) (centerLat centerLng radiusMeters : ℚ) :
    List Tx :=
  match dl.spatialIndex with
  | none => []
  | some idx =>
    let candidates := rbushSearch (circleBbox m centerLat centerLng radiusMeters) idx
    (candidates.map fun it => dl.data.getD it.index default).filter fun t =>
      decide (haversineDistance m centerLat centerLng t.latitude t.longitude ≤ radiusMeters)

/-- Modelled from the spec: `DataLoader.queryRectangle` is invoked by
`AnalyticsPanel.bindMapEvents` but its implementation is not among the
provided sources.  Per §4.2 of the spec it takes the candidates from the
SpatialIndex for the query box and filters them to those within the closed
box bounds (axis-aligned); following `queryCircle`, an unbuilt index yields
the empty result. -/
def queryRectangle (dl : DataLoader) (minLat minLng maxLat maxLng : ℚ) : List Tx :=
  match dl.spatialIndex with
  | none => []
  | some idx =>
    let candidates := rbushSearch
      { minX := minLng, minY := minLat, maxX := maxLng, maxY := maxLat } idx
    (candidates.map fun it => dl.data.getD it.index default).filter fun t =>
      decide (minLat ≤ t.latitude ∧ t.latitude ≤ maxLat ∧
        minLng ≤ t.longitude ∧ t.longitude ≤ maxLng)

/-- Per-feature mean/std entry of `summary_stats` in
src/analytics/FairValueAnalysis.ts. -/
structure MeanStd where
  mean : ℚ
  std : ℚ
  deriving DecidableEq, Repr

/-- Field `features` of the `RegressionCoefficients` interface. -/
structure FeatureCoefficients where
  storey_midpoint : ℚ
  remaining_lease_years : ℚ
  mrt_distance_km : ℚ
  floor_area_sqm : ℚ
  flat_type_encoded : ℚ
  deriving DecidableEq, Repr

/-- Field `summary_stats` of the `RegressionCoefficients` interface. -/
structure SummaryStats where
  storey_midpoint : MeanStd
  remaining_lease_years : MeanStd
  mrt_distance_km : MeanStd
  floor_area_sqm : MeanStd
  deriving DecidableEq, Repr

/-- Record mirroring the `RegressionCoefficients` interface of
src/analytics/FairValueAnalysis.ts (the `Record<string,string>` flat-type
mapping is an association list). -/
structure RegressionCoefficients where
  intercept : ℚ
  features : FeatureCoefficients
  flat_type_mapping : List (String × String)
  r_squared : ℚ
  latest_price_index : ℚ
  latest_quarter : String
  n_samples : ℕ
  summary_stats : SummaryStats
  deriving DecidableEq, Repr

/-- State of a `FairValueAnalysis` instance: coefficients are `none` until
`loadCoefficients` succeeds (and stay `none` when loading fails). -/
structure FairValueAnalysis where
  coefficients : Option RegressionCoefficients

/-- Entry of the list returned by `FairValueAnalysis.getFactorImpacts`. -/
structure FactorImpact where
  feature : String
  label : String
  value : ℚ
  percentImpact : ℚ
  comparedToMean : String
  deriving DecidableEq, Repr

/-- Model of `FairValueAnalysis.getAdjustedPricePsf`: the raw PSF price when
no model is loaded, otherwise the PSF price scaled by
`latest_price_index / (price_index ?? 100)`. -/
def getAdjustedPricePsf (fv : FairValueAnalysis) (t : Tx) : ℚ :=
  match fv.coefficients with
  | none => t.price_psf
  | some c => t.price_psf * (c.latest_price_index / t.price_index.getD 100)

/-- Model of `FairValueAnalysis.getFactorImpacts`: `[]` when no model is
loaded; otherwise the four per-feature impact records, each computed as
`(exp(coef·(value − mean)) − 1)·100` with the source's comparison labels
(the MRT label direction is inverted: closer is better). -/
def getFactorImpacts (m : JSMath) (fv : FairValueAnalysis) (t : Tx) : List FactorImpact :=
  match fv.coefficients with
  | none => []
  | some c =>
    let coef := c.features
    let stats := c.summary_stats
    let storeyMidpoint := t.storey_midpoint.getD 8
    let mrtDistanceKm := t.mrt_distance_m.getD 500 / 1000
    [ { feature := "storey_midpoint", label := "Storey", value := storeyMidpoint,
        percentImpact :=
          (m.exp (coef.storey_midpoint * (storeyMidpoint - stats.storey_midpoint.mean)) - 1) * 100,
        comparedToMean :=
          if storeyMidpoint > stats.storey_midpoint.mean then "above average" else "below average" },
      { feature := "remaining_lease_years", label := "Lease Remaining",
        value := t.remaining_lease_years,
        percentImpact :=
          (m.exp (coef.remaining_lease_years *
            (t.remaining_lease_years - stats.remaining_lease_years.mean)) - 1) * 100,
        comparedToMean :=
          if t.remaining_lease_years > stats.remaining_lease_years.mean then "above average"
          else "below average" },
      { feature := "mrt_distance_km", label := "MRT Distance", value := mrtDistanceKm,
        percentImpact :=
          (m.exp (coef.mrt_distance_km * (mrtDistanceKm - stats.mrt_distance_km.mean)) - 1) * 100,
        comparedToMean :=
          if mrtDistanceKm < stats.mrt_distance_km.mean then "closer than average"
          else "farther than average" },
      { feature := "floor_area_sqm", label := "Floor Area", value := t.floor_area_sqm,
        percentImpact :=
          (m.exp (coef.floor_area_sqm * (t.floor_area_sqm - stats.floor_area_sqm.mean)) - 1) * 100,
        comparedToMean :=
          if t.floor_area_sqm > stats.floor_area_sqm.mean then "larger than average"
          else "smaller than average" } ]

/-- Result record of `FairValueAnalysis.getPriceDistribution`. -/
structure DistributionStats where
  min : ℚ
  max : ℚ
  median : ℚ
  q1 : ℚ
  q3 : ℚ
  mean : ℚ
  std : ℚ
  deriving DecidableEq, Repr

/-- Adjusted PSF prices of a transaction list, sorted ascending — the
`adjustedPrices` local of `getPriceDistribution` (JS `sort((a, b) => a - b)`
is modelled by a stable sort under `≤`). -/
def adjustedPricesSorted (fv : FairValueAnalysis) (transactions : List Tx) : List ℚ :=
  (transactions.map (getAdjustedPricePsf fv)).insertionSort (· ≤ ·)

/-- Model of `FairValueAnalysis.getPriceDistribution`: all-zero stats for an
empty input, otherwise nearest-rank quantiles at ⌊n/2⌋, ⌊n·0.25⌋, ⌊n·0.75⌋
of the ascending-sorted adjusted prices, endpoints as min/max, and
population mean/std (std through the abstract Math.sqrt). -/
def getPriceDistribution (m : JSMath) (fv : FairValueAnalysis) (transactions : List Tx) :
    DistributionStats :=
  if transactions.length = 0 then
    { min := 0, max := 0, median := 0, q1 := 0, q3 := 0, mean := 0, std := 0 }
  else
    let adjustedPrices := adjustedPricesSorted fv transactions
    let n := adjustedPrices.length
    let mean := adjustedPrices.sum / (n : ℚ)
    let variance := (adjustedPrices.map fun p => (p - mean) ^ 2).sum / (n : ℚ)
    { min := adjustedPrices.getD 0 0, max := adjustedPrices.getD (n - 1) 0,
      median := adjustedPrices.getD (n / 2) 0, q1 := adjustedPrices.getD (n / 4) 0,
      q3 := adjustedPrices.getD (3 * n / 4) 0, mean := mean, std := m.sqrt variance }

/-- Box-plot record produced per group by `OverviewTab.renderChart` and by
the fair-value tab's `aggregateByFeature` (identical statistic blocks). -/
structure BoxPlotStats where
  min : ℚ
  q1 : ℚ
  median : ℚ
  mean : ℚ
  q3 : ℚ
  max : ℚ
  outliers : List ℚ
  deriving DecidableEq, Repr

/-- Ascending sort of a group's prices, the `prices` local of the box-plot
blocks (JS `sort((a, b) => a - b)`). -/
def bpPrices (samples : List ℚ) : List ℚ := samples.insertionSort (· ≤ ·)

/-- Nearest-rank Q1 of the box-plot block: `prices[Math.floor(n * 0.25)]`. -/
def bpQ1 (samples : List ℚ) : ℚ := (bpPrices samples).getD ((bpPrices samples).length / 4) 0

/-- Nearest-rank Q3 of the box-plot block: `prices[Math.floor(n * 0.75)]`. -/
def bpQ3 (samples : List ℚ) : ℚ :=
  (bpPrices samples).getD (3 * (bpPrices samples).length / 4) 0

/-- Tukey lower fence of the box-plot block: `q1 - 1.5 * iqr`. -/
def bpLowerFence (samples : List ℚ) : ℚ := bpQ1 samples - 1.5 * (bpQ3 samples - bpQ1 samples)

/-- Tukey upper fence of the box-plot block: `q3 + 1.5 * iqr`. -/
def bpUpperFence (samples : List ℚ) : ℚ := bpQ3 samples + 1.5 * (bpQ3 samples - bpQ1 samples)

/-- Out-of-fence points of the box-plot block:
`prices.filter(p => p < lowerFence || p > upperFence)`. -/
def bpOutliers (samples : List ℚ) : List ℚ :=
  (bpPrices samples).filter fun p =>
    decide (p < bpLowerFence samples ∨ bpUpperFence samples < p)

/-- In-fence points of the box-plot block:
`prices.filter(p => p >= lowerFence && p <= upperFence)`. -/
def bpInRange (samples : List ℚ) : List ℚ :=
  (bpPrices samples).filter fun p =>
    decide (bpLowerFence samples ≤ p ∧ p ≤ bpUpperFence samples)

/-- Model of the box-plot statistics block shared by `OverviewTab.renderChart`
and `aggregateByFeature`: reported min/max are the in-fence extremes,
falling back to the raw sorted extremes when no point is in fence; median
at ⌊n/2⌋; arithmetic mean; out-of-fence points reported as outliers. -/
def boxPlotStats (samples : List ℚ) : BoxPlotStats :=
  { min := if (bpInRange samples).length > 0 then (bpInRange samples).getD 0 0
      else (bpPrices samples).getD 0 0,
    q1 := bpQ1 samples,
    median := (bpPrices samples).getD ((bpPrices samples).length / 2) 0,
    mean := (bpPrices samples).sum / ((bpPrices samples).length : ℚ),
    q3 := bpQ3 samples,
    max := if (bpInRange samples).length > 0 then
        (bpInRange samples).getD ((bpInRange samples).length - 1) 0
      else (bpPrices samples).getD ((bpPrices samples).length - 1) 0,
    outliers := bpOutliers samples }

/-- State of a `RadialSelection` instance (src/tools/RadialSelection.ts). -/
structure RadialSelection where
  dataLoader : DataLoader
  centerLat : Option ℚ
  centerLng : Option ℚ
  radiusMeters : ℚ
  isActive : Bool

/-- Constructor of `RadialSelection`: stores the loader, no center, zero
radius, inactive. -/
def mkRadialSelection (dl : DataLoader) : RadialSelection :=
  { dataLoader := dl, centerLat := none, centerLng := none,
    radiusMeters := 0, isActive := false }

/-- Model of `RadialSelection.setSelection`. -/
def setSelection (s : RadialSelection) (centerLat centerLng radiusMeters : ℚ) :
    RadialSelection :=
  { s with
    centerLat := some centerLat
    centerLng := some centerLng
    radiusMeters := radiusMeters
    isActive := true }

/-- Model of `RadialSelection.clearSelection`. -/
def clearSelection (s : RadialSelection) : RadialSelection :=
  { s with centerLat := none, centerLng := none, radiusMeters := 0, isActive := false }

/-- Model of `RadialSelection.getSelectedTransactions`: `none` (JS `null`)
unless active with a stored center, otherwise the circle query on the
stored geometry. -/
def getSelectedTransactions (m : JSMath) (s : RadialSelection) : Option (List Tx) :=
  match s.isActive, s.centerLat, s.centerLng with
  | true, some lat, some lng => some (queryCircle m s.dataLoader lat lng s.radiusMeters)
  | _, _, _ => none

/-! Helper lemmas. -/

/-- Filtering by `q` after a pre-filter by a weaker predicate `p` is the
same as filtering by `q` alone. -/
theorem filter_filter_of_imp {α : Type} (l : List α) (p q : α → Bool)
    (h : ∀ a, q a = true → p a = true) : (l.filter p).filter q = l.filter q := by
  induction l with
  | nil => rfl
  | cons a t ih =>
    cases hq : q a with
    | true => simp [List.filter_cons, h a hq, hq, ih]
    | false => cases hp : p a <;> simp [List.filter_cons, hp, hq, ih]

/-- Head of a nonempty list is a member (in `getD` form). -/
theorem getD_zero_mem (l : List ℚ) (h : l ≠ []) : l.getD 0 0 ∈ l := by
  cases l with
  | nil => exact absurd rfl h
  | cons a t => simp

/-- Last element of a nonempty list is a member (in `getD` form). -/
theorem getD_last_mem (l : List ℚ) (h : l ≠ []) : l.getD (l.length - 1) 0 ∈ l := by
  have hlt : l.length - 1 < l.length := by
    cases l with
    | nil => exact absurd rfl h
    | cons a t => simp
  rw [List.getD_eq_getElem l 0 hlt]
  exact List.getElem_mem hlt

/-- In an ascending-sorted list the head bounds every member from below. -/
theorem sorted_getD_zero_le (l : List ℚ) (hs : l.Sorted (· ≤ ·)) :
    ∀ p ∈ l, l.getD 0 0 ≤ p := by
  intro p hp
  cases l with
  | nil => simp at hp
  | cons a t =>
    rcases List.mem_cons.mp hp with rfl | h
    · simp
    · simpa using (List.sorted_cons.mp hs).1 p h

/-- In an ascending-sorted list the last element bounds every member from
above. -/
theorem sorted_le_getD_last (l : List ℚ) (hs : l.Sorted (· ≤ ·)) :
    ∀ p ∈ l, p ≤ l.getD (l.length - 1) 0 := by
  induction l with
  | nil => intro p hp; simp at hp
  | cons a t ih =>
    intro p hp
    cases t with
    | nil =>
      rcases List.mem_cons.mp hp with rfl | h
      · simp
      · simp at h
    | cons b u =>
      have hst : (b :: u).Sorted (· ≤ ·) := (List.sorted_cons.mp hs).2
      have hgd : (a :: b :: u).getD ((a :: b :: u).length - 1) 0
          = (b :: u).getD ((b :: u).length - 1) 0 := by
        simp [List.getD_cons_succ]
      rw [hgd]
      rcases List.mem_cons.mp hp with rfl | h
      · exact le_trans
          ((List.sorted_cons.mp hs).1 _ (getD_last_mem (b :: u) (by simp)))
          (le_refl _)
      · exact ih hst p h

/-- Mapping the rbush candidates of a built index back through the stored
array positions is the same as filtering the rows by the point-in-box
test. -/
theorem search_build_map (rows : List Tx) (q : Bbox) :
    (rbushSearch q (buildSpatialIndex rows)).map
      (fun it => rows.getD it.index default)
    = rows.filter fun t =>
        decide (t.longitude ≤ q.maxX ∧ t.latitude ≤ q.maxY ∧
          q.minX ≤ t.longitude ∧ q.minY ≤ t.latitude) := by
  show ((rows.enum.map fun p : ℕ × Tx =>
      ({ minX := p.2.longitude, minY := p.2.latitude,
         maxX := p.2.longitude, maxY := p.2.latitude,
         index := p.1 } : SpatialItem ℚ)).filter (intersectsB q)).map
      (fun it => rows.getD it.index default) = _
  rw [List.filter_map, List.map_map]
  have hpred : (intersectsB q ∘ fun p : ℕ × Tx =>
      ({ minX := p.2.longitude, minY := p.2.latitude,
         maxX := p.2.longitude, maxY := p.2.latitude,
         index := p.1 } : SpatialItem ℚ))
    = ((fun t : Tx => decide (t.longitude ≤ q.maxX ∧ t.latitude ≤ q.maxY ∧
        q.minX ≤ t.longitude ∧ q.minY ≤ t.latitude)) ∘ Prod.snd) := rfl
  rw [hpred]
  have hmem : ∀ p ∈ rows.enum.filter
      ((fun t : Tx => decide (t.longitude ≤ q.maxX ∧ t.latitude ≤ q.maxY ∧
        q.minX ≤ t.longitude ∧ q.minY ≤ t.latitude)) ∘ Prod.snd),
      ((fun it : SpatialItem ℚ => rows.getD it.index default) ∘ fun p : ℕ × Tx =>
        ({ minX := p.2.longitude, minY := p.2.latitude,
           maxX := p.2.longitude, maxY := p.2.latitude,
           index := p.1 } : SpatialItem ℚ)) p = Prod.snd p := by
    intro p hp
    have hpe : p ∈ rows.enum := List.mem_of_mem_filter hp
    have hget : rows[p.1]? = some p.2 := by
      have := List.mem_enum_iff_getElem?.mp hpe
      simpa using this
    simp [Function.comp, List.getD_eq_getElem?_getD, hget]
  rw [List.map_congr_left hmem, ← List.filter_map, List.enum_map_snd]

/-! Concrete fixtures used by witnesses and counterexamples. -/

/-- Concrete interpretation of the Math primitives used to instantiate the
parametric theorems on closed inputs. -/
def trivMath : JSMath :=
  { pi := 0, sin := fun _ => 0, cos := fun _ => 1,
    atan2 := fun _ _ => 0, sqrt := fun _ => 0, exp := fun _ => 1 }

/-- Transaction fixture at the coordinate origin. -/
def originTx : Tx :=
  { (default : Tx) with price_psf := 500, latitude := 0, longitude := 0 }

/-- Transaction fixture with a given PSF price and price index. -/
def psfTx (psf : ℚ) (idx : Option ℚ) : Tx :=
  { (default : Tx) with price_psf := psf, price_index := idx }

/-- Transaction fixture (over possibly-malformed JS numbers) whose latitude
is NaN/undefined, modelled as `none`. -/
def nanLatTx : HDBTransaction (Option ℚ) :=
  { month := "2024-01", transaction_date := "", town := "BEDOK",
    flat_type := "4 ROOM", block := "1", street_name := "",
    storey_range := "07 TO 09", floor_area_sqm := some 90, flat_model := "",
    lease_commence_date := some 1990, remaining_lease_years := some 70,
    resale_price := some 500000, price_psm := some 5000, price_psf := some 464,
    latitude := none, longitude := some 103, storey_midpoint := none,
    mrt_distance_m := none, price_index := none }

/-- Coefficient fixture whose reference price index is 180. -/
def sampleCoeffs : RegressionCoefficients where
  intercept := 0
  features :=
    { storey_midpoint := 0
      remaining_lease_years := 0
      mrt_distance_km := 0
      floor_area_sqm := 0
      flat_type_encoded := 0 }
  flat_type_mapping := []
  r_squared := 0
  latest_price_index := 180
  latest_quarter := "2024-Q4"
  n_samples := 0
  summary_stats :=
    { storey_midpoint := ⟨0, 0⟩
      remaining_lease_years := ⟨0, 0⟩
      mrt_distance_km := ⟨0, 0⟩
      floor_area_sqm := ⟨0, 0⟩ }

/-- Index entry produced by `buildSpatialIndex` for `nanLatTx`. -/
def nanLatItem : SpatialItem (Option ℚ) where
  minX := some 103
  minY := none
  maxX := some 103
  maxY := none
  index := 0

/-! Claim theorems. -/

/-- Claim C1: for every loaded dataset and every axis-aligned box,
`queryRectangle` returns exactly the transactions whose latitude and
longitude lie within the closed box bounds — it coincides with the
brute-force linear scan over the dataset (no false positives, no false
negatives, storage order preserved). -/
theorem queryRectangle_eq_linear_scan (rows : List Tx) (minLat minLng maxLat maxLng : ℚ) :
    queryRectangle (loadData rows) minLat minLng maxLat maxLng
    = rows.filter fun t =>
        decide (minLat ≤ t.latitude ∧ t.latitude ≤ maxLat ∧
          minLng ≤ t.longitude ∧ t.longitude ≤ maxLng) := by
  show ((rbushSearch { minX := minLng, minY := minLat, maxX := maxLng, maxY := maxLat }
      (buildSpatialIndex rows)).map fun it => rows.getD it.index default).filter
      (fun t => decide (minLat ≤ t.latitude ∧ t.latitude ≤ maxLat ∧
        minLng ≤ t.longitude ∧ t.longitude ≤ maxLng)) = _
  rw [search_build_map]
  refine filter_filter_of_imp rows _ _ fun t ht => ?_
  simp only [decide_eq_true_eq] at ht ⊢
  obtain ⟨h1, h2, h3, h4⟩ := ht
  exact ⟨h4, h2, h3, h1⟩

/-- Claim C2 (divergence witness): `buildSpatialIndex` performs no filtering,
so a transaction whose latitude is NaN/undefined (modelled `none`) produces
an index entry whose bounding box carries the malformed coordinate — the
spec's requirement that such entries be excluded is not implemented. -/
theorem buildSpatialIndex_keeps_malformed :
    ∃ e ∈ buildSpatialIndex [nanLatTx], e.minY = none ∧ e.maxY = none := by
  refine ⟨nanLatItem, ?_, rfl, rfl⟩
  simp [buildSpatialIndex, nanLatTx, nanLatItem]

/-- Claim C3: for every loaded dataset, center and radius, every transaction
returned by `queryCircle` has haversine distance ≤ r from the center, and
every bbox candidate whose transaction is within haversine distance r is
returned — the two-phase bbox-then-exact filter keeps exactly the in-circle
candidates. -/
theorem queryCircle_two_phase (m : JSMath) (rows : List Tx) (clat clng r : ℚ) :
    (∀ t ∈ queryCircle m (loadData rows) clat clng r,
      haversineDistance m clat clng t.latitude t.longitude ≤ r) ∧
    (∀ it ∈ rbushSearch (circleBbox m clat clng r) (buildSpatialIndex rows),
      haversineDistance m clat clng (rows.getD it.index default).latitude
        (rows.getD it.index default).longitude ≤ r →
      rows.getD it.index default ∈ queryCircle m (loadData rows) clat clng r) := by
  have hq : queryCircle m (loadData rows) clat clng r
      = ((rbushSearch (circleBbox m clat clng r) (buildSpatialIndex rows)).map
          fun it => rows.getD it.index default).filter fun t =>
            decide (haversineDistance m clat clng t.latitude t.longitude ≤ r) := rfl
  constructor
  · intro t ht
    rw [hq] at ht
    simpa using (List.mem_filter.mp ht).2
  · intro it hit hd
    rw [hq]
    exact List.mem_filter.mpr ⟨List.mem_map.mpr ⟨it, hit, rfl⟩, by simpa using hd⟩

/-- Witness for C3 at a concrete one-row dataset and concrete Math
interpretation. -/
theorem queryCircle_two_phase_witness :
    originTx ∈ queryCircle trivMath (loadData [originTx]) 0 0 10 ∧
    haversineDistance trivMath 0 0 originTx.latitude originTx.longitude ≤ 10 := by
  have hmem : originTx ∈ queryCircle trivMath (loadData [originTx]) 0 0 10 := by
    simp [queryCircle, loadData, buildSpatialIndex, rbushSearch, intersectsB,
      circleBbox, haversineDistance, originTx, trivMath, List.filter_cons]
    norm_num
  exact ⟨hmem, (queryCircle_two_phase trivMath [originTx] 0 0 10).1 originTx hmem⟩

/-- Unfolded form of `circleBbox`. -/
theorem circleBbox_eq (m : JSMath) (clat clng r : ℚ) :
    circleBbox m clat clng r =
    { minX := clng - r / (111000 * m.cos (clat * m.pi / 180)),
      minY := clat - r / 111000,
      maxX := clng + r / (111000 * m.cos (clat * m.pi / 180)),
      maxY := clat + r / 111000 } := rfl

/-- Claim C4: for a fixed loaded dataset and center, `queryCircle` results
grow monotonically with the radius, provided the cosine of the center
latitude is nonnegative (true of the real cosine for every WGS84 latitude
in [-90°, 90°]). -/
theorem queryCircle_radius_monotone (m : JSMath) (rows : List Tx) (clat clng r1 r2 : ℚ)
    (hr : r1 ≤ r2) (hc : 0 ≤ m.cos (clat * m.pi / 180)) :
    ∀ t ∈ queryCircle m (loadData rows) clat clng r1,
      t ∈ queryCircle m (loadData rows) clat clng r2 := by
  intro t ht
  have hq1 : queryCircle m (loadData rows) clat clng r1
      = ((rbushSearch (circleBbox m clat clng r1) (buildSpatialIndex rows)).map
          fun it => rows.getD it.index default).filter fun t =>
            decide (haversineDistance m clat clng t.latitude t.longitude ≤ r1) := rfl
  have hq2 : queryCircle m (loadData rows) clat clng r2
      = ((rbushSearch (circleBbox m clat clng r2) (buildSpatialIndex rows)).map
          fun it => rows.getD it.index default).filter fun t =>
            decide (haversineDistance m clat clng t.latitude t.longitude ≤ r2) := rfl
  rw [hq1] at ht
  rw [hq2]
  obtain ⟨hmem, hdist⟩ := List.mem_filter.mp ht
  obtain ⟨it, hit, rfl⟩ := List.mem_map.mp hmem
  have hlng : r1 / (111000 * m.cos (clat * m.pi / 180))
      ≤ r2 / (111000 * m.cos (clat * m.pi / 180)) := by
    rcases eq_or_lt_of_le hc with h0 | hpos
    · rw [← h0]
      simp
    · exact (div_le_div_iff_of_pos_right (by nlinarith)).mpr hr
  have hlat : r1 / 111000 ≤ r2 / 111000 :=
    (div_le_div_iff_of_pos_right (by norm_num)).mpr hr
  have hit2 : it ∈ rbushSearch (circleBbox m clat clng r2) (buildSpatialIndex rows) := by
    obtain ⟨hin, hcond⟩ := List.mem_filter.mp hit
    refine List.mem_filter.mpr ⟨hin, ?_⟩
    simp only [intersectsB, circleBbox_eq, decide_eq_true_eq] at hcond ⊢
    obtain ⟨h1, h2, h3, h4⟩ := hcond
    exact ⟨by linarith, by linarith, by linarith, by linarith⟩
  refine List.mem_filter.mpr ⟨List.mem_map.mpr ⟨it, hit2, rfl⟩, ?_⟩
  simp only [decide_eq_true_eq] at hdist ⊢
  linarith

/-- Witness for C4: a one-row dataset queried at radii 1 and 2. -/
theorem queryCircle_radius_monotone_witness :
    (1 : ℚ) ≤ 2 ∧ 0 ≤ trivMath.cos (0 * trivMath.pi / 180) ∧
    originTx ∈ queryCircle trivMath (loadData [originTx]) 0 0 1 ∧
    originTx ∈ queryCircle trivMath (loadData [originTx]) 0 0 2 := by
  have h1 : originTx ∈ queryCircle trivMath (loadData [originTx]) 0 0 1 := by
    simp [queryCircle, loadData, buildSpatialIndex, rbushSearch, intersectsB,
      circleBbox, haversineDistance, originTx, trivMath]
  exact ⟨by norm_num, by norm_num [trivMath],
    h1, queryCircle_radius_monotone trivMath [originTx] 0 0 1 2 (by norm_num)
      (by norm_num [trivMath]) originTx h1⟩

/-- Claim C5: with a loaded model, `getAdjustedPricePsf` scales the PSF
price by referenceIndex / ownIndex, the own index defaulting to 100 when
absent; concretely 500 adjusts to 900 at index 100 and to 600 at index 150
when the reference index is 180. -/
theorem adjusted_price_formula :
    (∀ (c : RegressionCoefficients) (t : Tx),
      getAdjustedPricePsf { coefficients := some c } t
        = t.price_psf * (c.latest_price_index / t.price_index.getD 100)) ∧
    getAdjustedPricePsf { coefficients := some sampleCoeffs } (psfTx 500 (some 100)) = 900 ∧
    getAdjustedPricePsf { coefficients := some sampleCoeffs } (psfTx 500 (some 150)) = 600 ∧
    getAdjustedPricePsf { coefficients := some sampleCoeffs } (psfTx 500 none) = 900 := by
  refine ⟨fun c t => rfl, ?_, ?_, ?_⟩ <;>
    norm_num [getAdjustedPricePsf, psfTx, sampleCoeffs]

/-- Claim C6: with no model loaded, `getAdjustedPricePsf` is the identity on
the PSF price and `getFactorImpacts` returns the empty list (both
operations are total Lean functions, hence cannot throw). -/
theorem no_model_passthrough (m : JSMath) (t : Tx) :
    getAdjustedPricePsf { coefficients := none } t = t.price_psf ∧
    getFactorImpacts m { coefficients := none } t = [] :=
  ⟨rfl, rfl⟩

/-- Claim C9: the radial selection session returns no transactions in the
Idle state (freshly constructed or after `clearSelection`), delegates to
the circle query with the stored geometry after `setSelection`, and
`clearSelection` always restores the Idle state. -/
theorem radialSelection_state_machine (m : JSMath) (dl : DataLoader) :
    getSelectedTransactions m (mkRadialSelection dl) = none ∧
    (∀ s : RadialSelection, getSelectedTransactions m (clearSelection s) = none) ∧
    (∀ s : RadialSelection, (clearSelection s).isActive = false ∧
      (clearSelection s).centerLat = none ∧ (clearSelection s).centerLng = none ∧
      (clearSelection s).radiusMeters = 0) ∧
    (∀ (s : RadialSelection) (lat lng r : ℚ),
      getSelectedTransactions m (setSelection s lat lng r)
        = some (queryCircle m s.dataLoader lat lng r)) :=
  ⟨rfl, fun _ => rfl, fun _ => ⟨rfl, rfl, rfl, rfl⟩, fun _ _ _ _ => rfl⟩

/-- Claim C10: before any dataset is loaded (no spatial index built),
`queryCircle` returns the empty list for every center and radius. -/
theorem queryCircle_unloaded_empty (m : JSMath) (dl : DataLoader)
    (clat clng r : ℚ) (h : dl.spatialIndex = none) :
    queryCircle m dl clat clng r = [] := by
  unfold queryCircle
  rw [h]

/-- Witness for C10 at the freshly constructed loader. -/
theorem queryCircle_unloaded_empty_witness :
    DataLoader.init.spatialIndex = none ∧
    queryCircle trivMath DataLoader.init 3 4 500 = [] :=
  ⟨rfl, queryCircle_unloaded_empty trivMath DataLoader.init 3 4 500 rfl⟩

/-- Claim C7: `getPriceDistribution` computes its statistics by sorting the
(adjusted) samples ascending and taking the endpoints as min/max, the
elements at ranks ⌊n/2⌋, ⌊n·0.25⌋ and ⌊n·0.75⌋ as median/Q1/Q3
(nearest-rank), and the population mean and standard deviation; the empty
input yields all-zero statistics.  `sorted` ranges over any ascending
sorting of the sample multiset. -/
theorem getPriceDistribution_spec (m : JSMath) (fv : FairValueAnalysis) (ts : List Tx)
    (sorted : List ℚ) (hp : (ts.map (getAdjustedPricePsf fv)).Perm sorted)
    (hsort : sorted.Sorted (· ≤ ·)) (hne : ts ≠ []) :
    getPriceDistribution m fv [] = ⟨0, 0, 0, 0, 0, 0, 0⟩ ∧
    (getPriceDistribution m fv ts).min = sorted.getD 0 0 ∧
    (getPriceDistribution m fv ts).max = sorted.getD (ts.length - 1) 0 ∧
    (getPriceDistribution m fv ts).median = sorted.getD (ts.length / 2) 0 ∧
    (getPriceDistribution m fv ts).q1 = sorted.getD (ts.length / 4) 0 ∧
    (getPriceDistribution m fv ts).q3 = sorted.getD (3 * ts.length / 4) 0 ∧
    (getPriceDistribution m fv ts).mean = sorted.sum / (ts.length : ℚ) ∧
    (getPriceDistribution m fv ts).std
      = m.sqrt ((sorted.map fun p => (p - sorted.sum / (ts.length : ℚ)) ^ 2).sum
          / (ts.length : ℚ)) := by
  have key : adjustedPricesSorted fv ts = sorted :=
    List.eq_of_perm_of_sorted ((List.perm_insertionSort _ _).trans hp)
      (List.sorted_insertionSort _ _) hsort
  have hlen : sorted.length = ts.length := by
    have h1 := hp.symm.length_eq
    simpa using h1
  have h0 : ¬ ts.length = 0 := fun h => hne (List.length_eq_zero.mp h)
  refine ⟨rfl, ?_, ?_, ?_, ?_, ?_, ?_, ?_⟩ <;>
    simp only [getPriceDistribution, if_neg h0, key, hlen]

/-- Fixture list for the C7 witness. -/
def rowsC7 : List Tx := [psfTx 3 none, psfTx 1 none, psfTx 2 none]

/-- Witness for C7 on a three-row fixture with no model loaded. -/
theorem getPriceDistribution_spec_witness :
    (rowsC7.map (getAdjustedPricePsf { coefficients := none })).Perm [1, 2, 3] ∧
    ([1, 2, 3] : List ℚ).Sorted (· ≤ ·) ∧ rowsC7 ≠ [] ∧
    (getPriceDistribution trivMath { coefficients := none } rowsC7).median
      = ([1, 2, 3] : List ℚ).getD (rowsC7.length / 2) 0 := by
  have hp : (rowsC7.map (getAdjustedPricePsf { coefficients := none })).Perm [1, 2, 3] := by
    decide
  have hs : ([1, 2, 3] : List ℚ).Sorted (· ≤ ·) := by decide
  have hne : rowsC7 ≠ [] := by decide
  exact ⟨hp, hs, hne,
    (getPriceDistribution_spec trivMath { coefficients := none } rowsC7
      [1, 2, 3] hp hs hne).2.2.2.1⟩

/-- Claim C8: the box-plot statistics fence at Q1 − 1.5·IQR and Q3 + 1.5·IQR;
every out-of-fence sample is reported in `outliers` (and only those); when
some sample lies inside the fences the reported min/max are the extreme
in-fence samples, and when none does they are the raw sorted extremes. -/
theorem boxPlotStats_spec (samples sorted : List ℚ)
    (hp : samples.Perm sorted) (hsort : sorted.Sorted (· ≤ ·)) (hne : samples ≠ []) :
    bpLowerFence samples = (boxPlotStats samples).q1
      - 1.5 * ((boxPlotStats samples).q3 - (boxPlotStats samples).q1) ∧
    bpUpperFence samples = (boxPlotStats samples).q3
      + 1.5 * ((boxPlotStats samples).q3 - (boxPlotStats samples).q1) ∧
    (∀ p ∈ samples, (p < bpLowerFence samples ∨ bpUpperFence samples < p) →
      p ∈ (boxPlotStats samples).outliers) ∧
    (∀ p ∈ (boxPlotStats samples).outliers,
      p ∈ samples ∧ (p < bpLowerFence samples ∨ bpUpperFence samples < p)) ∧
    ((∃ w ∈ samples, bpLowerFence samples ≤ w ∧ w ≤ bpUpperFence samples) →
      (boxPlotStats samples).min ∈ samples ∧
      bpLowerFence samples ≤ (boxPlotStats samples).min ∧
      (boxPlotStats samples).min ≤ bpUpperFence samples ∧
      (∀ p ∈ samples, bpLowerFence samples ≤ p → p ≤ bpUpperFence samples →
        (boxPlotStats samples).min ≤ p) ∧
      (boxPlotStats samples).max ∈ samples ∧
      bpLowerFence samples ≤ (boxPlotStats samples).max ∧
      (boxPlotStats samples).max ≤ bpUpperFence samples ∧
      (∀ p ∈ samples, bpLowerFence samples ≤ p → p ≤ bpUpperFence samples →
        p ≤ (boxPlotStats samples).max)) ∧
    ((∀ p ∈ samples, p < bpLowerFence samples ∨ bpUpperFence samples < p) →
      (boxPlotStats samples).min = sorted.getD 0 0 ∧
      (boxPlotStats samples).max = sorted.getD (sorted.length - 1) 0) := by
  have key : bpPrices samples = sorted :=
    List.eq_of_perm_of_sorted ((List.perm_insertionSort _ _).trans hp)
      (List.sorted_insertionSort _ _) hsort
  have hmemiff : ∀ p : ℚ, p ∈ bpPrices samples ↔ p ∈ samples := fun p =>
    (List.perm_insertionSort _ _).mem_iff
  have hsortP : (bpPrices samples).Sorted (· ≤ ·) := List.sorted_insertionSort _ _
  have hInSorted : (bpInRange samples).Sorted (· ≤ ·) := hsortP.filter _
  refine ⟨rfl, rfl, ?_, ?_, ?_, ?_⟩
  · intro p hps hout
    exact List.mem_filter.mpr ⟨(hmemiff p).mpr hps, by simpa using hout⟩
  · intro p hpo
    obtain ⟨hin, hcond⟩ := List.mem_filter.mp hpo
    exact ⟨(hmemiff p).mp hin, by simpa using hcond⟩
  · rintro ⟨w, hw, hwl, hwu⟩
    have hwIn : w ∈ bpInRange samples :=
      List.mem_filter.mpr ⟨(hmemiff w).mpr hw, by simp [hwl, hwu]⟩
    have hInNe : bpInRange samples ≠ [] := List.ne_nil_of_mem hwIn
    have hlen : 0 < (bpInRange samples).length := List.length_pos.mpr hInNe
    have hmin : (boxPlotStats samples).min = (bpInRange samples).getD 0 0 := by
      simp [boxPlotStats, hlen]
    have hmax : (boxPlotStats samples).max
        = (bpInRange samples).getD ((bpInRange samples).length - 1) 0 := by
      simp [boxPlotStats, hlen]
    have hminIn : (boxPlotStats samples).min ∈ bpInRange samples := by
      rw [hmin]; exact getD_zero_mem _ hInNe
    have hmaxIn : (boxPlotStats samples).max ∈ bpInRange samples := by
      rw [hmax]; exact getD_last_mem _ hInNe
    obtain ⟨hminP, hminC⟩ := List.mem_filter.mp hminIn
    obtain ⟨hmaxP, hmaxC⟩ := List.mem_filter.mp hmaxIn
    simp only [decide_eq_true_eq] at hminC hmaxC
    refine ⟨(hmemiff _).mp hminP, hminC.1, hminC.2, ?_,
      (hmemiff _).mp hmaxP, hmaxC.1, hmaxC.2, ?_⟩
    · intro p hps hl hu
      have hpIn : p ∈ bpInRange samples :=
        List.mem_filter.mpr ⟨(hmemiff p).mpr hps, by simp [hl, hu]⟩
      rw [hmin]
      exact sorted_getD_zero_le _ hInSorted p hpIn
    · intro p hps hl hu
      have hpIn : p ∈ bpInRange samples :=
        List.mem_filter.mpr ⟨(hmemiff p).mpr hps, by simp [hl, hu]⟩
      rw [hmax]
      exact sorted_le_getD_last _ hInSorted p hpIn
  · intro hall
    have hnil : bpInRange samples = [] := by
      refine List.filter_eq_nil_iff.mpr fun a ha => ?_
      have has := hall a ((hmemiff a).mp ha)
      simp only [decide_eq_true_eq, not_and, not_le]
      intro hla
      rcases has with h | h
      · exact absurd hla (not_le.mpr h)
      · exact h
    have hlen0 : ¬ 0 < (bpInRange samples).length := by simp [hnil]
    constructor
    · have : (boxPlotStats samples).min = (bpPrices samples).getD 0 0 := by
        simp [boxPlotStats, hnil]
      rw [this, key]
    · have : (boxPlotStats samples).max
          = (bpPrices samples).getD ((bpPrices samples).length - 1) 0 := by
        simp [boxPlotStats, hnil]
      rw [this, key]

/-- Fixture list for the C8 witness: one extreme value beyond the upper
Tukey fence. -/
def samplesC8 : List ℚ := [400, 500, 600, 700, 8000]

/-- Witness for C8: the extreme sample 8000 lands in the outlier list. -/
theorem boxPlotStats_spec_witness :
    samplesC8.Perm samplesC8 ∧ samplesC8.Sorted (· ≤ ·) ∧ samplesC8 ≠ [] ∧
    8000 ∈ (boxPlotStats samplesC8).outliers := by
  have hp : samplesC8.Perm samplesC8 := List.Perm.refl _
  have hs : samplesC8.Sorted (· ≤ ·) := by decide
  have hne : samplesC8 ≠ [] := by decide
  refine ⟨hp, hs, hne, ?_⟩
  refine (boxPlotStats_spec samplesC8 samplesC8 hp hs hne).2.2.1 8000 (by decide) ?_
  right
  norm_num [bpUpperFence, bpQ3, bpQ1, bpPrices, samplesC8,
    List.insertionSort, List.orderedInsert, List.getD]

end Hdb
